import Mathlib

/-!
Verification of the frame-data-to-bitrate-statistics pipeline of
prores-bitrate-analyser.

The pipeline lives in `VideoAnalyzer` of `src/prores_analyser.py` (v1.1.0,
the authoritative file) with a near-duplicate older version in
`src/prores_analyser_v1.0.0.py`.  Python floats are modelled as exact
rationals (`ℚ`), Python ints as `Int`/`ℕ`, raw ffprobe JSON fields as
`Option` values, and the Python `float(...)` string parser as an abstract
parameter `parse : String → Option ℚ` (entries on which `float` raises are
exactly those on which `parse` returns `none`).
-/

namespace ProRes

/-- Raw ffprobe frame entry as consumed by `_get_frame_data`
(fields `pkt_pts_time`, `pkt_size`, `pict_type`; each may be absent).
`pkt_size` is the integer value of the raw size field
(`int(...)` applied to the probe's string succeeds on integer literals). -/
structure RawFrame where
  pkt_pts_time : Option String
  pkt_size : Option Int
  pict_type : Option String
deriving DecidableEq, Repr

/-- Normalized frame record appended by `_get_frame_data`
(`{'time': ..., 'size': ..., 'type': ...}`). -/
structure FrameRec where
  time : ℚ
  size : Int
  type : String
deriving DecidableEq, Repr

/-- Timestamp resolution of the `_get_frame_data` loop body
(src/prores_analyser.py lines 139-146): missing / empty / literal "0" /
unparseable timestamps fall back to `frame_num / fps`. -/
def resolveTime (parse : String → Option ℚ) (fps : ℚ) (n : ℕ)
    (raw : Option String) : ℚ :=
  match raw with
  | none => (n : ℚ) / fps
  | some s =>
    if s = "" ∨ s = "0" then (n : ℚ) / fps
    else
      match parse s with
      | some v => v
      | none => (n : ℚ) / fps

/-- One iteration of the `_get_frame_data` loop (lines 139-153): builds the
record appended for the raw entry at running index `n`. -/
def normalizeFrame (parse : String → Option ℚ) (fps : ℚ) (n : ℕ)
    (f : RawFrame) : FrameRec :=
  { time := resolveTime parse fps n f.pkt_pts_time
  , size := f.pkt_size.getD 0
  , type := f.pict_type.getD "P" }

/-- The `_get_frame_data` loop with its running counter `frame_num`
(starts at `m`, incremented once per entry). -/
def getFrameDataAux (parse : String → Option ℚ) (fps : ℚ) :
    ℕ → List RawFrame → List FrameRec
  | _, [] => []
  | n, f :: rest => normalizeFrame parse fps n f :: getFrameDataAux parse fps (n + 1) rest

/-- `VideoAnalyzer._get_frame_data` (lines 136-159): the FrameRecord
Normalizer, `frame_num` starting at 0. -/
def getFrameData (parse : String → Option ℚ) (fps : ℚ)
    (raws : List RawFrame) : List FrameRec :=
  getFrameDataAux parse fps 0 raws

/-- `np.mean` over a list. -/
def mean (xs : List ℚ) : ℚ := xs.sum / (xs.length : ℚ)

/-- `np.max` over a non-empty list (0 is an arbitrary value for `[]`,
which the code never reaches). -/
def listMax : List ℚ → ℚ
  | [] => 0
  | x :: rest => rest.foldl max x

/-- `np.min` over a non-empty list. -/
def listMin : List ℚ → ℚ
  | [] => 0
  | x :: rest => rest.foldl min x

/-- Square of `np.std` (population standard deviation); kept squared so the
value stays rational.  Two series have equal std iff they have equal
`popVariance`, since std is the non-negative square root of this. -/
def popVariance (xs : List ℚ) : ℚ :=
  mean (xs.map (fun x => (x - mean xs) ^ 2))

/-- Python `int()` applied to a float: truncation toward zero. -/
def pyInt (q : ℚ) : Int := if 0 ≤ q then ⌊q⌋ else ⌈q⌉

/-- `window_frames = int(metadata['fps'])` (line 178). -/
def windowFrames (fps : ℚ) : Int := pyInt fps

/-- `np.convolve(a, v, mode='valid')` for `a.length ≥ v.length`:
output `k` is the dot product of the window of `a` starting at `k`
with the reversed kernel. -/
def convolveValid (a v : List ℚ) : List ℚ :=
  (List.range (a.length + 1 - v.length)).map fun k =>
    ((((a.drop k).take v.length).zip v.reverse).map fun p => p.1 * p.2).sum

/-- The dict returned by `_calculate_statistics` (v1.1.0) on non-empty
input, with `std_bitrate` represented by its square (see `popVariance`). -/
structure Stats where
  avg_bitrate : ℚ
  max_bitrate : ℚ
  min_bitrate : ℚ
  std_bitrate_sq : ℚ
  frame_count : ℕ
  i_frame_count : ℕ
  bitrates : List ℚ
  times : List ℚ
  windowed_bitrates : List ℚ
  windowed_times : List ℚ
  frame_types : List String
deriving DecidableEq, Repr

/-- `VideoAnalyzer._calculate_statistics` of src/prores_analyser.py
(lines 161-209).  `.ok none` is the `{}` returned for empty input.
The two `.error` results are the `ValueError`s numpy raises when
`window_frames ≤ 0` reaches `np.ones` / `np.convolve` (the exception
escapes to the generic handler of `run`); only `metadata['fps']` is
consumed from the metadata dict, so it is the `fps` argument here. -/
def calculateStatistics (fps : ℚ) (frameData : List FrameRec) :
    Except String (Option Stats) :=
  if frameData.isEmpty then .ok none
  else
    let times := frameData.map (·.time)
    let sizes := frameData.map (·.size)
    let frame_types := frameData.map (·.type)
    let bitrates := sizes.map (fun (s : Int) => (s : ℚ) * 8 * fps / 1000000)
    let window_frames : Int := windowFrames fps
    if (bitrates.length : Int) > window_frames then
      if window_frames < 0 then .error "ValueError: negative dimensions are not allowed"
      else if window_frames = 0 then .error "ValueError: v cannot be empty"
      else
        let w := window_frames.toNat
        let kernel := List.replicate w (1 / (w : ℚ))
        let windowed_bitrates := convolveValid bitrates kernel
        let offset := w / 2
        let windowed_times := (times.drop offset).take windowed_bitrates.length
        .ok (some
          { avg_bitrate := mean bitrates
          , max_bitrate := listMax bitrates
          , min_bitrate := listMin bitrates
          , std_bitrate_sq := popVariance bitrates
          , frame_count := frameData.length
          , i_frame_count := (frame_types.filter (· == "I")).length
          , bitrates := bitrates
          , times := times
          , windowed_bitrates := windowed_bitrates
          , windowed_times := windowed_times
          , frame_types := frame_types })
    else
      .ok (some
        { avg_bitrate := mean bitrates
        , max_bitrate := listMax bitrates
        , min_bitrate := listMin bitrates
        , std_bitrate_sq := popVariance bitrates
        , frame_count := frameData.length
        , i_frame_count := (frame_types.filter (· == "I")).length
        , bitrates := bitrates
        , times := times
        , windowed_bitrates := bitrates
        , windowed_times := times
        , frame_types := frame_types })

/-- The dict returned by v1.0.0's `_calculate_statistics` on non-empty
input (src/prores_analyser_v1.0.0.py lines 133-144); it has no
`frame_types` key. -/
structure StatsV100 where
  avg_bitrate : ℚ
  max_bitrate : ℚ
  min_bitrate : ℚ
  std_bitrate_sq : ℚ
  frame_count : ℕ
  i_frame_count : ℕ
  bitrates : List ℚ
  times : List ℚ
  windowed_bitrates : List ℚ
  windowed_times : List ℚ
deriving DecidableEq, Repr

/-- v1.0.0's `_calculate_statistics` (lines 102-144).  The `while` loop
advances `current_time` by `window_size = 1.0` starting from `times[0]`
until it reaches `max_time = times[-1]`, so it runs exactly
`⌈max_time - times[0]⌉` iterations (0 when that is non-positive); iteration
`k` has `current_time = times[0] + k`, collects the frames whose time `t`
satisfies `current_time ≤ t < current_time + window_size`, and when that
window is non-empty appends its mean and the window center. -/
def calculateStatisticsV100 (fps : ℚ) (frameData : List FrameRec) :
    Option StatsV100 :=
  if frameData.isEmpty then none
  else
    let bitrates := frameData.map (fun f => (f.size : ℚ) * 8 * fps / 1000000)
    let times := frameData.map (·.time)
    let window_size : ℚ := 1
    let pts :=
      if times.isEmpty then []
      else
        let current0 := times.headD 0
        let max_time := times.getLastD 0
        (List.range (⌈max_time - current0⌉.toNat)).filterMap fun k =>
          let current := current0 + (k : ℚ)
          let window_frames :=
            ((times.zip bitrates).filter
              (fun p => decide (current ≤ p.1) && decide (p.1 < current + window_size))).map
              (·.2)
          if window_frames.isEmpty then none
          else some (current + window_size / 2, mean window_frames)
    some
      { avg_bitrate := mean bitrates
      , max_bitrate := listMax bitrates
      , min_bitrate := listMin bitrates
      , std_bitrate_sq := popVariance bitrates
      , frame_count := frameData.length
      , i_frame_count := (frameData.filter (fun f => f.type == "I")).length
      , bitrates := bitrates
      , times := times
      , windowed_bitrates := pts.map (·.2)
      , windowed_times := pts.map (·.1) }

/-- Projection of the windowed bitrates out of a v1.1.0 result. -/
def v110Windowed (r : Except String (Option Stats)) : List ℚ :=
  match r with
  | .ok (some s) => s.windowed_bitrates
  | _ => []

/-- Projection of the windowed bitrates out of a v1.0.0 result. -/
def v100Windowed (r : Option StatsV100) : List ℚ :=
  match r with
  | some s => s.windowed_bitrates
  | none => []

/-- Concrete frame data: fps 2, three frames of 125/250/375 kB at
times 0, 0.5, 1. -/
def fd3 : List FrameRec :=
  [⟨0, 125000, "P"⟩, ⟨1/2, 250000, "P"⟩, ⟨1, 375000, "P"⟩]

/-- The v1.1.0 statistics of `fd3` at fps 2 (window of 2 frames). -/
def sC1 : Stats :=
  ⟨4, 6, 2, 8/3, 3, 0, [2, 4, 6], [0, 1/2, 1], [3, 5], [1/2, 1], ["P", "P", "P"]⟩

/-- The v1.1.0 statistics of `fd3` at fps 24 (short input: passthrough). -/
def sC3 : Stats :=
  ⟨48, 72, 24, 384, 3, 0, [24, 48, 72], [0, 1/2, 1], [24, 48, 72], [0, 1/2, 1],
    ["P", "P", "P"]⟩

/-- The v1.0.0 statistics of `fd3` at fps 2 (one wall-clock window). -/
def sV100fd3 : StatsV100 :=
  ⟨4, 6, 2, 8/3, 3, 0, [2, 4, 6], [0, 1/2, 1], [3], [1/2]⟩

/-- A stand-in float parser for concrete instances (accepts nothing). -/
def parseStub : String → Option ℚ := fun _ => none

/-- Concrete raw probe entries: one full entry with an unparseable
timestamp, one with timestamp and picture type absent. -/
def rawsW : List RawFrame :=
  [⟨some "x", some 10, some "I"⟩, ⟨none, some 20, none⟩]

/-! ### Helper lemmas about the Normalizer -/

lemma getFrameDataAux_length (parse : String → Option ℚ) (fps : ℚ)
    (m : ℕ) (raws : List RawFrame) :
    (getFrameDataAux parse fps m raws).length = raws.length := by
  induction raws generalizing m with
  | nil => rfl
  | cons f rest ih => simp [getFrameDataAux, ih]

lemma getFrameDataAux_getElem? (parse : String → Option ℚ) (fps : ℚ)
    (m : ℕ) (raws : List RawFrame) (n : ℕ) :
    (getFrameDataAux parse fps m raws)[n]? =
      (raws[n]?).map (fun f => normalizeFrame parse fps (m + n) f) := by
  induction raws generalizing m n with
  | nil => simp [getFrameDataAux]
  | cons f rest ih =>
    cases n with
    | zero => simp [getFrameDataAux]
    | succ n =>
      have h := ih (m + 1) n
      simpa [getFrameDataAux, Nat.add_assoc, Nat.add_comm 1 n] using h

lemma getFrameData_getElem? (parse : String → Option ℚ) (fps : ℚ)
    (raws : List RawFrame) (n : ℕ) :
    (getFrameData parse fps raws)[n]? =
      (raws[n]?).map (fun f => normalizeFrame parse fps n f) := by
  simpa [getFrameData] using getFrameDataAux_getElem? parse fps 0 raws n

/-! ### Helper lemmas about `pyInt` and the convolution -/

lemma pyInt_of_pos (q : ℚ) (h : 0 < q) : pyInt q = ⌊q⌋ := if_pos h.le

lemma pyInt_nonpos (q : ℚ) (h : q ≤ 0) : pyInt q ≤ 0 := by
  unfold pyInt
  split
  · have hq : q = 0 := le_antisymm h (by assumption)
    simp [hq]
  · exact Int.ceil_le.mpr (by exact_mod_cast h)

lemma convolveValid_length (a v : List ℚ) :
    (convolveValid a v).length = a.length + 1 - v.length := by
  simp [convolveValid]

lemma sum_zip_replicate (l : List ℚ) (w : ℕ) (c : ℚ) (h : l.length ≤ w) :
    ((l.zip (List.replicate w c)).map fun p => p.1 * p.2).sum = l.sum * c := by
  induction l generalizing w with
  | nil => simp
  | cons x xs ih =>
    cases w with
    | zero => simp at h
    | succ w =>
      simp only [List.replicate_succ, List.zip_cons_cons, List.map_cons, List.sum_cons,
        ih w (by simpa using h)]
      ring

lemma convolveValid_replicate_getElem? (a : List ℚ) (w : ℕ) (c : ℚ) (i : ℕ)
    (hi : i < a.length + 1 - w) :
    (convolveValid a (List.replicate w c))[i]? =
      some (((a.drop i).take w).sum * c) := by
  have hle : ((a.drop i).take w).length ≤ w := List.length_take_le _ _
  simp [convolveValid, List.getElem?_map, List.getElem?_range, hi,
    List.reverse_replicate, sum_zip_replicate _ w c hle]

lemma getElem?_take_drop (l : List ℚ) (o L i : ℕ) (hi : i < L) :
    ((l.drop o).take L)[i]? = l[o + i]? := by
  rw [List.getElem?_take, if_pos hi, List.getElem?_drop]

/-! ### Branch lemmas for `calculateStatistics` -/

lemma calculateStatistics_ok_fields (fps : ℚ) (fd : List FrameRec) (s : Stats)
    (hs : calculateStatistics fps fd = .ok (some s)) :
    s.bitrates = fd.map (fun f => (f.size : ℚ) * 8 * fps / 1000000) ∧
    s.times = fd.map (·.time) ∧
    s.frame_types = fd.map (·.type) ∧
    s.avg_bitrate = mean s.bitrates ∧
    s.max_bitrate = listMax s.bitrates ∧
    s.min_bitrate = listMin s.bitrates ∧
    s.std_bitrate_sq = popVariance s.bitrates ∧
    s.frame_count = fd.length ∧
    s.i_frame_count = ((fd.map (·.type)).filter (· == "I")).length := by
  simp only [calculateStatistics] at hs
  split at hs
  · exact absurd hs (by simp)
  · split at hs
    · split at hs
      · exact absurd hs (by simp)
      · split at hs
        · exact absurd hs (by simp)
        · simp only [Except.ok.injEq, Option.some.injEq] at hs
          subst hs
          exact ⟨by simp [List.map_map], rfl, rfl, rfl, rfl, rfl, rfl, rfl, rfl⟩
    · simp only [Except.ok.injEq, Option.some.injEq] at hs
      subst hs
      exact ⟨by simp [List.map_map], rfl, rfl, rfl, rfl, rfl, rfl, rfl, rfl⟩

lemma calculateStatistics_long (fps : ℚ) (fd : List FrameRec) (s : Stats)
    (hw : 1 ≤ windowFrames fps) (hlen : (fd.length : Int) > windowFrames fps)
    (hs : calculateStatistics fps fd = .ok (some s)) :
    s.windowed_bitrates =
      convolveValid s.bitrates
        (List.replicate (windowFrames fps).toNat (1 / ((windowFrames fps).toNat : ℚ))) ∧
    s.windowed_times =
      (s.times.drop ((windowFrames fps).toNat / 2)).take s.windowed_bitrates.length := by
  simp only [calculateStatistics] at hs
  split at hs
  · rename_i h
    rw [List.isEmpty_iff] at h
    subst h
    simp at hlen
    omega
  · split at hs
    · split at hs
      · omega
      · split at hs
        · omega
        · simp only [Except.ok.injEq, Option.some.injEq] at hs
          subst hs
          exact ⟨rfl, rfl⟩
    · rename_i h
      simp only [List.length_map, Int.natCast_pos, gt_iff_lt, not_lt] at h
      omega

lemma calculateStatistics_short (fps : ℚ) (fd : List FrameRec) (s : Stats)
    (hlen : ¬((fd.length : Int) > windowFrames fps))
    (hs : calculateStatistics fps fd = .ok (some s)) :
    s.windowed_bitrates = s.bitrates ∧ s.windowed_times = s.times := by
  simp only [calculateStatistics] at hs
  split at hs
  · exact absurd hs (by simp)
  · split at hs
    · rename_i h
      simp only [List.length_map] at h
      exact absurd h hlen
    · simp only [Except.ok.injEq, Option.some.injEq] at hs
      subst hs
      exact ⟨rfl, rfl⟩

lemma calculateStatisticsV100_fields (fps : ℚ) (fd : List FrameRec) (s : StatsV100)
    (hs : calculateStatisticsV100 fps fd = some s) :
    s.bitrates = fd.map (fun f => (f.size : ℚ) * 8 * fps / 1000000) ∧
    s.times = fd.map (·.time) ∧
    s.avg_bitrate = mean s.bitrates ∧
    s.max_bitrate = listMax s.bitrates ∧
    s.min_bitrate = listMin s.bitrates ∧
    s.std_bitrate_sq = popVariance s.bitrates ∧
    s.frame_count = fd.length ∧
    s.i_frame_count = (fd.filter (fun f => f.type == "I")).length := by
  simp only [calculateStatisticsV100] at hs
  split at hs
  · exact absurd hs (by simp)
  · simp only [Option.some.injEq] at hs
    subst hs
    exact ⟨rfl, rfl, rfl, rfl, rfl, rfl, rfl, rfl⟩

lemma filter_type_map (fd : List FrameRec) :
    ((fd.map (·.type)).filter (· == "I")).length =
      (fd.filter (fun f => f.type == "I")).length := by
  induction fd with
  | nil => rfl
  | cons f rest ih =>
    by_cases h : f.type == "I" <;> simp [List.filter_cons, h, ih]

/-! ### Evaluation lemmas for the concrete instances -/

lemma eval_calc_fd3 : calculateStatistics 2 fd3 = .ok (some sC1) := by
  norm_num [calculateStatistics, fd3, sC1, windowFrames, pyInt, mean, listMax, listMin,
    popVariance, convolveValid, List.range_succ, List.replicate, List.zip_cons_cons,
    List.filter_cons, show Int.toNat 2 = 2 from rfl,
    show ("P":String) ≠ "I" from by decide]

lemma eval_calc24_fd3 : calculateStatistics 24 fd3 = .ok (some sC3) := by
  norm_num [calculateStatistics, fd3, sC3, windowFrames, pyInt, mean, listMax, listMin,
    popVariance, List.filter_cons, show ("P":String) ≠ "I" from by decide]

lemma eval_calcV100_fd3 : calculateStatisticsV100 2 fd3 = some sV100fd3 := by
  norm_num [calculateStatisticsV100, fd3, sV100fd3, mean, listMax, listMin,
    popVariance, List.range_succ, List.filter_cons, List.filterMap_cons,
    List.cons_ne_nil, show ("P":String) ≠ "I" from by decide]

/-! ### Claim C1 -/

/-- C1: whenever the series is longer than the (positive) window, the
Windowed Aggregator produces exactly `len - window_frames + 1` points;
point `i` is the arithmetic mean of `bitrates[i .. i + window_frames - 1]`
(a sliding window in frame order), and its time is
`times[i + window_frames / 2]` (floor division for the offset). -/
theorem C1_windowed_aggregator (fps : ℚ) (fd : List FrameRec) (s : Stats)
    (hw : 1 ≤ windowFrames fps)
    (hlen : (fd.length : Int) > windowFrames fps)
    (hs : calculateStatistics fps fd = .ok (some s)) :
    s.windowed_bitrates.length = fd.length - (windowFrames fps).toNat + 1 ∧
    s.windowed_times.length = s.windowed_bitrates.length ∧
    (∀ i, i < s.windowed_bitrates.length →
      s.windowed_bitrates[i]? =
        some (mean ((s.bitrates.drop i).take (windowFrames fps).toNat))) ∧
    (∀ i, i < s.windowed_bitrates.length →
      s.windowed_times[i]? = s.times[i + (windowFrames fps).toNat / 2]?) := by
  obtain ⟨hb, ht, -, -, -, -, -, -, -⟩ := calculateStatistics_ok_fields fps fd s hs
  obtain ⟨hwb, hwt⟩ := calculateStatistics_long fps fd s hw hlen hs
  set w := (windowFrames fps).toNat with hwdef
  have hw1 : 1 ≤ w := by omega
  have hwlen : w < fd.length := by omega
  have hblen : s.bitrates.length = fd.length := by rw [hb]; simp
  have htlen : s.times.length = fd.length := by rw [ht]; simp
  have hconv : s.windowed_bitrates.length = fd.length + 1 - w := by
    rw [hwb, convolveValid_length]
    simp [hblen]
  refine ⟨by omega, ?_, ?_, ?_⟩
  · rw [hwt]
    simp only [List.length_take, List.length_drop, htlen]
    omega
  · intro i hi
    rw [hwb, convolveValid_replicate_getElem? _ _ _ _ (by omega : i < s.bitrates.length + 1 - w)]
    have hwin : ((s.bitrates.drop i).take w).length = w := by
      simp only [List.length_take, List.length_drop, hblen]
      omega
    have hmean : mean ((s.bitrates.drop i).take w) =
        ((s.bitrates.drop i).take w).sum * (1 / (w : ℚ)) := by
      rw [mean, hwin, div_eq_mul_inv, one_div]
    rw [hmean]
  · intro i hi
    rw [hwt, getElem?_take_drop _ _ _ _ hi, Nat.add_comm]

/-- Witness for C1 at fps 2 and the three frames of `fd3`. -/
theorem C1_witness :
    1 ≤ windowFrames 2 ∧ ((fd3.length : Int) > windowFrames 2) ∧
    calculateStatistics 2 fd3 = .ok (some sC1) ∧
    (sC1.windowed_bitrates.length = fd3.length - (windowFrames 2).toNat + 1 ∧
     sC1.windowed_times.length = sC1.windowed_bitrates.length ∧
     (∀ i, i < sC1.windowed_bitrates.length →
       sC1.windowed_bitrates[i]? =
         some (mean ((sC1.bitrates.drop i).take (windowFrames 2).toNat))) ∧
     (∀ i, i < sC1.windowed_bitrates.length →
       sC1.windowed_times[i]? = sC1.times[i + (windowFrames 2).toNat / 2]?)) := by
  have h1 : 1 ≤ windowFrames 2 := by norm_num [windowFrames, pyInt]
  have h2 : (fd3.length : Int) > windowFrames 2 := by norm_num [windowFrames, pyInt, fd3]
  exact ⟨h1, h2, eval_calc_fd3, C1_windowed_aggregator 2 fd3 sC1 h1 h2 eval_calc_fd3⟩

/-! ### Claim C2 -/

/-- C2 counterexample: the window width is `int(fps)` (truncation), not
`round(fps)`: at fps 1.6 the code uses width 1 while rounding gives 2;
and at fps 0.5 the width is 0, not at least 1. -/
theorem C2_counterexample :
    windowFrames (8/5 : ℚ) = 1 ∧ round ((8:ℚ)/5) = 2 ∧
    windowFrames (1/2 : ℚ) = 0 := by
  refine ⟨?_, ?_, ?_⟩ <;> norm_num [windowFrames, pyInt, round_eq]

/-- C2 (amended): for every fps > 0 the window width is the truncation
`⌊fps⌋` of fps (Python `int(fps)`), and it is at least 1 exactly when
fps ≥ 1. -/
theorem C2_truncated_window (fps : ℚ) (h : 0 < fps) :
    windowFrames fps = ⌊fps⌋ ∧ (1 ≤ windowFrames fps ↔ 1 ≤ fps) := by
  have hf : windowFrames fps = ⌊fps⌋ := if_pos h.le
  refine ⟨hf, ?_⟩
  rw [hf, Int.le_floor]
  norm_num

/-- Witness for the amended C2 at fps 2. -/
theorem C2_truncated_window_witness :
    (0 < (2:ℚ)) ∧
    (windowFrames 2 = ⌊(2:ℚ)⌋ ∧ (1 ≤ windowFrames 2 ↔ 1 ≤ (2:ℚ))) :=
  ⟨by norm_num, C2_truncated_window 2 (by norm_num)⟩

/-! ### Claim C3 -/

/-- C3: a non-empty series no longer than the window is passed through
unchanged as the windowed output (same times, same values). -/
theorem C3_short_input_passthrough (fps : ℚ) (fd : List FrameRec) (s : Stats)
    (hne : fd ≠ []) (hshort : (fd.length : Int) ≤ windowFrames fps)
    (hs : calculateStatistics fps fd = .ok (some s)) :
    s.windowed_bitrates = s.bitrates ∧ s.windowed_times = s.times :=
  calculateStatistics_short fps fd s (not_lt.mpr hshort) hs

/-- Witness for C3 at fps 24 with the three frames of `fd3`. -/
theorem C3_witness :
    fd3 ≠ [] ∧ ((fd3.length : Int) ≤ windowFrames 24) ∧
    calculateStatistics 24 fd3 = .ok (some sC3) ∧
    (sC3.windowed_bitrates = sC3.bitrates ∧ sC3.windowed_times = sC3.times) := by
  have h1 : fd3 ≠ [] := by simp [fd3]
  have h2 : (fd3.length : Int) ≤ windowFrames 24 := by
    norm_num [windowFrames, pyInt, fd3]
  exact ⟨h1, h2, eval_calc24_fd3,
    C3_short_input_passthrough 24 fd3 sC3 h1 h2 eval_calc24_fd3⟩

/-! ### Claim C4 -/

/-- C4: the Bitrate Series Builder computes, for every frame `i`,
`bitrates[i] = size[i] * 8 * fps / 1000000`. -/
theorem C4_bitrate_formula (fps : ℚ) (fd : List FrameRec) (s : Stats)
    (hfps : 0 < fps) (hs : calculateStatistics fps fd = .ok (some s)) :
    s.bitrates.length = fd.length ∧
    ∀ i : ℕ, s.bitrates[i]? =
      (fd[i]?).map (fun (f : FrameRec) => (f.size : ℚ) * 8 * fps / 1000000) := by
  obtain ⟨hb, -, -, -, -, -, -, -, -⟩ := calculateStatistics_ok_fields fps fd s hs
  rw [hb]
  exact ⟨by simp, fun i => by simp [List.getElem?_map]⟩

/-- Witness for C4 at fps 2 and `fd3`. -/
theorem C4_witness :
    (0 < (2:ℚ)) ∧ calculateStatistics 2 fd3 = .ok (some sC1) ∧
    (sC1.bitrates.length = fd3.length ∧
     ∀ i : ℕ, sC1.bitrates[i]? =
       (fd3[i]?).map (fun (f : FrameRec) => (f.size : ℚ) * 8 * 2 / 1000000)) := by
  have h1 : (0:ℚ) < 2 := by norm_num
  exact ⟨h1, eval_calc_fd3, C4_bitrate_formula 2 fd3 sC1 h1 eval_calc_fd3⟩

/-! ### Claim C5 -/

/-- C5: the Normalizer resolves the timestamp of entry `n` (0-based,
counting every prior entry) to `n / fps` when the raw timestamp is absent,
empty, the literal "0", or fails to parse as a float; otherwise to the
parsed value. -/
theorem C5_timestamp_fallback (parse : String → Option ℚ) (fps : ℚ)
    (hfps : 0 < fps) (raws : List RawFrame) (n : ℕ) :
    ((getFrameData parse fps raws)[n]?).map (fun r => r.time) =
      (raws[n]?).map (fun f =>
        match f.pkt_pts_time with
        | none => (n : ℚ) / fps
        | some str =>
          if str = "" ∨ str = "0" then (n : ℚ) / fps
          else
            match parse str with
            | some v => v
            | none => (n : ℚ) / fps) := by
  rw [getFrameData_getElem?]
  cases hr : raws[n]? with
  | none => rfl
  | some f => rfl

/-- Witness for C5 with the concrete entries of `rawsW` at fps 4. -/
theorem C5_witness :
    (0 < (4:ℚ)) ∧
    ((getFrameData parseStub 4 rawsW)[1]?).map (fun r => r.time) =
      (rawsW[1]?).map (fun f =>
        match f.pkt_pts_time with
        | none => ((1:ℕ) : ℚ) / 4
        | some str =>
          if str = "" ∨ str = "0" then ((1:ℕ) : ℚ) / 4
          else
            match parseStub str with
            | some v => v
            | none => ((1:ℕ) : ℚ) / 4) :=
  ⟨by norm_num, C5_timestamp_fallback parseStub 4 (by norm_num) rawsW 1⟩

/-! ### Claim C6 -/

/-- C6 counterexample: at fps 2 on `fd3` the two versions return different
windowed series (the v1.1.0 frame-count sliding window gives two points,
the v1.0.0 wall-clock binning gives one). -/
theorem C6_counterexample :
    v110Windowed (calculateStatistics 2 fd3) = [3, 5] ∧
    v100Windowed (calculateStatisticsV100 2 fd3) = [3] ∧
    v110Windowed (calculateStatistics 2 fd3) ≠
      v100Windowed (calculateStatisticsV100 2 fd3) := by
  have h1 : v110Windowed (calculateStatistics 2 fd3) = [3, 5] := by
    rw [eval_calc_fd3]; rfl
  have h2 : v100Windowed (calculateStatisticsV100 2 fd3) = [3] := by
    rw [eval_calcV100_fd3]; rfl
  refine ⟨h1, h2, ?_⟩
  rw [h1, h2]
  simp

/-- C6 (amended): whenever both versions produce a result, they agree on
the per-frame series and on every scalar aggregate, but not in general on
the windowed series (see the counterexample). -/
theorem C6_shared_fields_agree (fps : ℚ) (fd : List FrameRec)
    (s110 : Stats) (s100 : StatsV100)
    (h110 : calculateStatistics fps fd = .ok (some s110))
    (h100 : calculateStatisticsV100 fps fd = some s100) :
    s110.bitrates = s100.bitrates ∧ s110.times = s100.times ∧
    s110.avg_bitrate = s100.avg_bitrate ∧
    s110.max_bitrate = s100.max_bitrate ∧
    s110.min_bitrate = s100.min_bitrate ∧
    s110.std_bitrate_sq = s100.std_bitrate_sq ∧
    s110.frame_count = s100.frame_count ∧
    s110.i_frame_count = s100.i_frame_count := by
  obtain ⟨hb, ht, -, havg, hmax, hmin, hstd, hfc, hifc⟩ :=
    calculateStatistics_ok_fields fps fd s110 h110
  obtain ⟨hb', ht', havg', hmax', hmin', hstd', hfc', hifc'⟩ :=
    calculateStatisticsV100_fields fps fd s100 h100
  have hbb : s110.bitrates = s100.bitrates := by rw [hb, hb']
  refine ⟨hbb, by rw [ht, ht'], ?_, ?_, ?_, ?_, by rw [hfc, hfc'], ?_⟩
  · rw [havg, havg', hbb]
  · rw [hmax, hmax', hbb]
  · rw [hmin, hmin', hbb]
  · rw [hstd, hstd', hbb]
  · rw [hifc, hifc', filter_type_map]

/-- Witness for the amended C6 at fps 2 on `fd3`. -/
theorem C6_witness :
    calculateStatistics 2 fd3 = .ok (some sC1) ∧
    calculateStatisticsV100 2 fd3 = some sV100fd3 ∧
    (sC1.bitrates = sV100fd3.bitrates ∧ sC1.times = sV100fd3.times ∧
     sC1.avg_bitrate = sV100fd3.avg_bitrate ∧
     sC1.max_bitrate = sV100fd3.max_bitrate ∧
     sC1.min_bitrate = sV100fd3.min_bitrate ∧
     sC1.std_bitrate_sq = sV100fd3.std_bitrate_sq ∧
     sC1.frame_count = sV100fd3.frame_count ∧
     sC1.i_frame_count = sV100fd3.i_frame_count) :=
  ⟨eval_calc_fd3, eval_calcV100_fd3,
    C6_shared_fields_agree 2 fd3 sC1 sV100fd3 eval_calc_fd3 eval_calcV100_fd3⟩

/-! ### Claim C7 -/

/-- C7 counterexample: a raw entry with an unrecognized picture-type code
"X" and raw size -5 is normalized to type "X" (not "P") and size -5
(negative): neither the non-negativity coercion nor the unrecognized-code
default claimed by the spec exists in the code. -/
theorem C7_counterexample :
    getFrameData parseStub 24 [⟨none, some (-5), some "X"⟩] =
      [{ time := 0, size := -5, type := "X" }] ∧
    (-5 : Int) < 0 ∧ ("X" : String) ≠ "P" := by
  refine ⟨?_, by norm_num, by decide⟩
  simp [getFrameData, getFrameDataAux, normalizeFrame, resolveTime, parseStub]

/-- C7 (amended): the Normalizer gives size 0 when the raw size is absent
and otherwise the raw integer unchanged (it is not coerced to be
non-negative), and gives picture type "P" exactly when the raw code is
absent — any present code, recognized or not, passes through unchanged. -/
theorem C7_size_type_defaults (parse : String → Option ℚ) (fps : ℚ)
    (raws : List RawFrame) (n : ℕ) :
    ((getFrameData parse fps raws)[n]?).map (fun r => (r.size, r.type)) =
      (raws[n]?).map (fun f => (f.pkt_size.getD 0, f.pict_type.getD "P")) := by
  rw [getFrameData_getElem?]
  cases hr : raws[n]? with
  | none => rfl
  | some f => rfl

/-! ### Claim C8 -/

/-- C8 counterexample: with fps = -1 and one frame the computation does
not fail with an `InvalidInput` condition at the Bitrate Series Builder:
the division is performed silently and the failure is the generic numpy
`ValueError` raised later in the windowing step. -/
theorem C8_counterexample :
    calculateStatistics (-1) [⟨0, 1000, "P"⟩] =
      .error "ValueError: negative dimensions are not allowed" := by
  norm_num [calculateStatistics, windowFrames, pyInt,
    show ⌈(-1 : ℚ)⌉ = -1 from by
      rw [show ((-1:ℚ)) = ((-1 : ℤ) : ℚ) by norm_num, Int.ceil_intCast]]

/-- C8 (amended): no fps validation exists; for every fps ≤ 0 and
non-empty frame list the bitrate division is performed and the overall
computation then fails in the windowing step with one of the two numpy
`ValueError`s (never an `InvalidInput` condition). -/
theorem C8_no_invalid_input (fps : ℚ) (fd : List FrameRec)
    (hfps : fps ≤ 0) (hne : fd ≠ []) :
    ∃ e, calculateStatistics fps fd = .error e ∧
      (e = "ValueError: negative dimensions are not allowed" ∨
       e = "ValueError: v cannot be empty") := by
  have hw : windowFrames fps ≤ 0 := pyInt_nonpos fps hfps
  have hl : 0 < fd.length := List.length_pos.mpr hne
  simp only [calculateStatistics]
  split
  · rename_i h
    rw [List.isEmpty_iff] at h
    exact absurd h hne
  · split
    · split
      · exact ⟨_, rfl, Or.inl rfl⟩
      · split
        · exact ⟨_, rfl, Or.inr rfl⟩
        · rename_i h1 h2
          omega
    · rename_i h
      simp only [List.length_map] at h
      omega

/-- Witness for the amended C8 at fps -1 with one frame. -/
theorem C8_witness :
    ((-1 : ℚ) ≤ 0) ∧ ([(⟨0, 1000, "P"⟩ : FrameRec)] ≠ []) ∧
    (∃ e, calculateStatistics (-1) [(⟨0, 1000, "P"⟩ : FrameRec)] = .error e ∧
      (e = "ValueError: negative dimensions are not allowed" ∨
       e = "ValueError: v cannot be empty")) :=
  ⟨by norm_num, by simp,
    C8_no_invalid_input (-1) [⟨0, 1000, "P"⟩] (by norm_num) (by simp)⟩

/-! ### Claim C9 -/

/-- C9: on the empty frame list the Statistics Summarizer returns the
empty result (no aggregates computed, no error, nothing undefined). -/
theorem C9_empty_stats (fps : ℚ) : calculateStatistics fps [] = .ok none := rfl

/-! ### Claim C10 -/

/-- C10: the Normalizer emits exactly one record per raw entry, in order
(entry `n` becomes `normalizeFrame` of it at index `n`), and the
`frame_count` of the statistics equals the number of raw entries. -/
theorem C10_one_record_per_entry (parse : String → Option ℚ) (fps : ℚ)
    (hfps : 0 < fps) (raws : List RawFrame) :
    (getFrameData parse fps raws).length = raws.length ∧
    (∀ n, (getFrameData parse fps raws)[n]? =
      (raws[n]?).map (fun f => normalizeFrame parse fps n f)) ∧
    (∀ s, calculateStatistics fps (getFrameData parse fps raws) = .ok (some s) →
      s.frame_count = raws.length) := by
  refine ⟨getFrameDataAux_length parse fps 0 raws,
    fun n => getFrameData_getElem? parse fps raws n, fun s hs => ?_⟩
  obtain ⟨-, -, -, -, -, -, -, hfc, -⟩ :=
    calculateStatistics_ok_fields fps (getFrameData parse fps raws) s hs
  rw [hfc]
  exact getFrameDataAux_length parse fps 0 raws

/-- Witness for C10 with `rawsW` at fps 4. -/
theorem C10_witness :
    (0 < (4:ℚ)) ∧
    ((getFrameData parseStub 4 rawsW).length = rawsW.length ∧
     (∀ n, (getFrameData parseStub 4 rawsW)[n]? =
       (rawsW[n]?).map (fun f => normalizeFrame parseStub 4 n f)) ∧
     (∀ s, calculateStatistics 4 (getFrameData parseStub 4 rawsW) = .ok (some s) →
       s.frame_count = rawsW.length)) :=
  ⟨by norm_num, C10_one_record_per_entry parseStub 4 (by norm_num) rawsW⟩

end ProRes
